import Mathlib

/-
Shallow embedding of the login flow of `src/screens/Auth/Login.js`
(the `handleLogin` callback of the `Login` component).

The flow is pure except for five kinds of side effects:
  setErrorMessage (React state), Alert.alert, AsyncStorage.setItem,
  navigation.replace, and the network call itself.  We model the network
  call's outcome (the axios promise resolution) as an input value and
  `handleLogin` as a function from that outcome to the ordered list of
  side effects the JavaScript code performs.
-/

set_option autoImplicit false

/-- A JavaScript value arriving as `response.data` (the subject identifier):
the server may send a string, a number, or nothing (`null`/`undefined`). -/
inductive JsData where
  | str (s : String)
  | num (n : Int)
  | absent
deriving DecidableEq, Repr

/-- JavaScript truthiness test `!x` on the response body: the empty string,
the number 0, and `null`/`undefined` are falsy. -/
def jsFalsy : JsData → Bool
  | .str s => s == ""
  | .num n => n == 0
  | .absent => true

/-- The normalization step of `handleLogin`:
`if (typeof studentNumber === 'number') studentNumber = studentNumber.toString()`.
A string passes through unchanged; the `absent` case is unreachable in the
flow because `absent` is falsy and rejected before normalization. -/
def normalizeSubject : JsData → String
  | .str s => s
  | .num n => toString n
  | .absent => ""

/-- Model of JavaScript `String.prototype.includes`: substring containment
(every pattern used by the source is non-empty). -/
def includes (s pat : String) : Bool := decide (pat.data <:+: s.data)

/-- JavaScript truthiness of the `jwt-token` response header: the header may
be missing (`undefined`) or present; `!token` is true when it is missing or
the empty string. -/
def tokenFalsy : Option String → Bool
  | none => true
  | some s => s == ""

/-- JavaScript `a || b` on an optional string
(`error.response.data?.message || fallback`): a missing or empty string
falls back to the default. -/
def jsOrDefault (m : Option String) (d : String) : String :=
  match m with
  | none => d
  | some s => if s == "" then d else s

/-- The role scan of `handleLogin`:
`roles.find((role) => role.includes('ROLE_'))`. -/
def findUserRole (roles : List String) : Option String :=
  roles.find? (fun role => includes role "ROLE_")

/-- The three destination areas of the role dispatch (the if/else chain on
`userRole` in `handleLogin`). -/
inductive Role where
  | guest
  | employee
  | student
deriving DecidableEq, Repr

/-- The role dispatch of `handleLogin` as a function of the matched tag:
`userRole.includes('ROLE_GUEST')`, else `userRole.includes('ROLE_EMPLOYEE')`,
else the student branch. -/
def roleOf (userRole : String) : Role :=
  if includes userRole "ROLE_GUEST" then .guest
  else if includes userRole "ROLE_EMPLOYEE" then .employee
  else .student

/-- The AsyncStorage key the dispatch writes the subject identifier to. -/
def slotFor : Role → String
  | .guest => "guestId"
  | .employee => "employeeNumber"
  | .student => "studentNumber"

/-- One `navigation.replace('Main', {...})` call: the nested screen names
and the optional `studentNumber` entry of the innermost params object
(only the student branch of the source passes it). -/
structure NavCall where
  routeName : String
  screen : String
  innerScreen : String
  paramStudentNumber : Option String
deriving DecidableEq, Repr

/-- The `navigation.replace` argument produced by each branch of the
dispatch in `handleLogin`. -/
def navFor (r : Role) (subjectId : String) : NavCall :=
  match r with
  | .guest => ⟨"Main", "Guests", "GuestViolation", none⟩
  | .employee => ⟨"Main", "Employees", "EmployeeReport", none⟩
  | .student => ⟨"Main", "Students", "StudentViolation", some subjectId⟩

/-- One observable side effect of `handleLogin`, in program order. -/
inductive Effect where
  | setErrorMessage (msg : String)
  | alertBox (title : String) (msg : String)
  | setItem (key : String) (value : String)
  | navReplace (nav : NavCall)
deriving DecidableEq, Repr

/-- The resolution of the axios promise inside `handleLogin`'s try/catch:
a delivered response (status, body, `jwt-token` header, and the
`authorities` field of the decoded token payload, `none` when the field is
absent), a rejected promise carrying a response (`error.response` with its
status and optional `data.message`), a rejection with a request but no
response (`error.request`), or a rejection with neither. -/
inductive AxiosResult where
  | success (status : Nat) (data : JsData) (jwtToken : Option String)
      (authorities : Option (List String))
  | httpError (status : Nat) (message : Option String)
  | noResponse
  | requestError
deriving DecidableEq, Repr

/-- The `handleLogin` function of `src/screens/Auth/Login.js`, as the ordered
list of side effects it performs on a given axios outcome.  The initial
`setErrorMessage('')` always runs first; each branch then mirrors the source:
subject check, token check, decode/role scan, the storage batch and the
navigation call, and the catch-clause taxonomy. -/
def handleLogin (res : AxiosResult) : List Effect :=
  Effect.setErrorMessage "" ::
  match res with
  | .success status data jwtToken authorities =>
    if status == 200 then
      if jsFalsy data then
        [Effect.setErrorMessage "Student number not received from server."]
      else
        let studentNumber := normalizeSubject data
        if tokenFalsy jwtToken then
          [Effect.setErrorMessage "Token not received from server."]
        else
          let token := jwtToken.getD ""
          let roles := authorities.getD []
          match findUserRole roles with
          | none =>
            [Effect.alertBox "Error" "Unauthorized role. Please try again."]
          | some userRole =>
            Effect.setItem "role" userRole ::
            Effect.setItem "token" token ::
            (if includes userRole "ROLE_GUEST" then
              [Effect.setItem "guestId" studentNumber,
               Effect.navReplace ⟨"Main", "Guests", "GuestViolation", none⟩]
            else if includes userRole "ROLE_EMPLOYEE" then
              [Effect.setItem "employeeNumber" studentNumber,
               Effect.navReplace ⟨"Main", "Employees", "EmployeeReport", none⟩]
            else
              [Effect.setItem "studentNumber" studentNumber,
               Effect.navReplace
                 ⟨"Main", "Students", "StudentViolation", some studentNumber⟩])
    else
      [Effect.setErrorMessage "Login failed. Please check your credentials."]
  | .httpError status message =>
    if status == 400 then
      [Effect.setErrorMessage "Incorrect username or password. Please try again."]
    else
      let serverMessage := jsOrDefault message "Invalid request. Please check your input."
      [Effect.setErrorMessage serverMessage,
       Effect.alertBox "Login Error" serverMessage]
  | .noResponse =>
    [Effect.setErrorMessage "No response from server. Check network or server status.",
     Effect.alertBox "Login Error"
       "No response from server. Check network or server status."]
  | .requestError =>
    [Effect.setErrorMessage "Request error. Please try again.",
     Effect.alertBox "Login Error" "Request error. Please try again."]

/-- The Session Store writes of a trace, in order. -/
def storageWrites (t : List Effect) : List (String × String) :=
  t.filterMap fun e =>
    match e with
    | .setItem k v => some (k, v)
    | _ => none

/-- The navigation calls of a trace, in order. -/
def navCalls (t : List Effect) : List NavCall :=
  t.filterMap fun e =>
    match e with
    | .navReplace n => some n
    | _ => none

/-- The blocking alerts of a trace, in order. -/
def alertCalls (t : List Effect) : List (String × String) :=
  t.filterMap fun e =>
    match e with
    | .alertBox ti m => some (ti, m)
    | _ => none

/-- The inline message left on screen after the flow: the last
`setErrorMessage` call of the trace. -/
def finalErrorMessage (t : List Effect) : String :=
  ((t.filterMap fun e =>
    match e with
    | .setErrorMessage m => some m
    | _ => none).getLast?).getD ""

/-- The persistence condition of the spec's Session invariant: HTTP 200, a
truthy token header, a truthy subject identifier, and a matched ROLE_
authority (the role scan yields exactly one tag). -/
def persists : AxiosResult → Bool
  | .success status data jwtToken authorities =>
    status == 200 && !jsFalsy data && !tokenFalsy jwtToken &&
      (findUserRole (authorities.getD [])).isSome
  | _ => false

example :
    handleLogin (.success 200 (.str "2021001234") (some "T") (some ["ROLE_STUDENT"])) =
      [.setErrorMessage "", .setItem "role" "ROLE_STUDENT", .setItem "token" "T",
       .setItem "studentNumber" "2021001234",
       .navReplace ⟨"Main", "Students", "StudentViolation", some "2021001234"⟩] := by
  decide

/-- Helper: `List.find?` returns the head of the filtered list. -/
theorem find?_eq_filter_head? {α : Type} (p : α → Bool) (l : List α) :
    l.find? p = (l.filter p).head? := by
  induction l with
  | nil => rfl
  | cons a l ih =>
    cases h : p a with
    | true => rw [List.find?_cons_of_pos _ h, List.filter_cons_of_pos h, List.head?_cons]
    | false =>
      rw [List.find?_cons_of_neg _ (by simp [h]), List.filter_cons_of_neg (by simp [h]), ih]

/-- Helper: the full effect trace of a successful login, for any axios
outcome meeting all four gate conditions of the success path. -/
theorem handleLogin_success_trace (data : JsData) (jwtToken : Option String)
    (authorities : Option (List String)) (userRole : String)
    (hd : jsFalsy data = false) (ht : tokenFalsy jwtToken = false)
    (hf : findUserRole (authorities.getD []) = some userRole) :
    handleLogin (.success 200 data jwtToken authorities) =
      [Effect.setErrorMessage "",
       Effect.setItem "role" userRole,
       Effect.setItem "token" (jwtToken.getD ""),
       Effect.setItem (slotFor (roleOf userRole)) (normalizeSubject data),
       Effect.navReplace (navFor (roleOf userRole) (normalizeSubject data))] := by
  simp only [handleLogin, hd, ht, hf, beq_self_eq_true, if_true,
    Bool.false_eq_true, if_false]
  unfold roleOf slotFor navFor
  by_cases hg : includes userRole "ROLE_GUEST" = true
  · simp [hg]
  · simp only [Bool.not_eq_true] at hg
    by_cases he : includes userRole "ROLE_EMPLOYEE" = true
    · simp [hg, he]
    · simp only [Bool.not_eq_true] at he
      simp [hg, he]

/-- Claim C1: a Session (role, token, identifier slot) is written to the Session
Store if and only if the axios call delivered HTTP 200, a truthy token
header, a truthy subject identifier, and the authorities scan yields a
matching ROLE_ tag; in every other case no key is written, and persistence
is all-or-nothing: the write set is empty or exactly the batch
role, token, one identifier slot. -/
theorem session_persist_all_or_nothing (res : AxiosResult) :
    (storageWrites (handleLogin res) ≠ [] ↔ persists res = true) ∧
    (storageWrites (handleLogin res) = [] ∨
      ∃ u t slot v,
        slot ∈ (["guestId", "employeeNumber", "studentNumber"] : List String) ∧
        storageWrites (handleLogin res) = [("role", u), ("token", t), (slot, v)]) := by
  cases res with
  | success status data jwtToken authorities =>
    by_cases hs : status = 200
    · subst hs
      cases hd : jsFalsy data with
      | true => simp [handleLogin, storageWrites, persists, hd]
      | false =>
        cases ht : tokenFalsy jwtToken with
        | true => simp [handleLogin, storageWrites, persists, hd, ht]
        | false =>
          cases hf : findUserRole (authorities.getD []) with
          | none => simp [handleLogin, storageWrites, persists, hd, ht, hf]
          | some u =>
            rw [handleLogin_success_trace data jwtToken authorities u hd ht hf]
            refine ⟨by simp [storageWrites, persists, hd, ht, hf], Or.inr ?_⟩
            refine ⟨u, jwtToken.getD "", slotFor (roleOf u), normalizeSubject data,
              ?_, by simp [storageWrites]⟩
            cases roleOf u <;> simp [slotFor]
    · have hs2 : (status == 200) = false := by simp [hs]
      simp [handleLogin, storageWrites, persists, hs2]
  | httpError status message =>
    cases h4 : (status == 400) <;>
      simp [handleLogin, storageWrites, persists, h4]
  | noResponse => simp [handleLogin, storageWrites, persists]
  | requestError => simp [handleLogin, storageWrites, persists]

/-- Claim C2: when the decoded authorities sequence has more than one entry
containing the substring ROLE_, the scan resolves the FIRST matching entry
in sequence order; in particular ["ROLE_EMPLOYEE", "ROLE_ADMIN_SHADOW"]
resolves to "ROLE_EMPLOYEE", which dispatches to the Employee area. -/
theorem first_match_tie_break (auths : List String)
    (h : 1 < (auths.filter (fun r => includes r "ROLE_")).length) :
    findUserRole auths = (auths.filter (fun r => includes r "ROLE_")).head? ∧
    findUserRole ["ROLE_EMPLOYEE", "ROLE_ADMIN_SHADOW"] = some "ROLE_EMPLOYEE" ∧
    roleOf "ROLE_EMPLOYEE" = Role.employee := by
  exact ⟨find?_eq_filter_head? _ _, by decide, by decide⟩

/-- Claim C2 witness: the tie-break theorem applied to the two-entry scenario of
the spec. -/
theorem first_match_tie_break_witness :
    1 < ((["ROLE_EMPLOYEE", "ROLE_ADMIN_SHADOW"] : List String).filter
      (fun r => includes r "ROLE_")).length ∧
    findUserRole ["ROLE_EMPLOYEE", "ROLE_ADMIN_SHADOW"] =
      ((["ROLE_EMPLOYEE", "ROLE_ADMIN_SHADOW"] : List String).filter
        (fun r => includes r "ROLE_")).head? :=
  ⟨by decide,
   (first_match_tie_break ["ROLE_EMPLOYEE", "ROLE_ADMIN_SHADOW"] (by decide)).1⟩

/-- Claim C3: the matched tag maps to a Role by substring containment — a tag
containing ROLE_GUEST to Guest, otherwise a tag containing ROLE_EMPLOYEE to
Employee, and any other ROLE_ tag to Student (a default, not an error) —
while the complete absence of a matching entry yields the Unauthorized
blocking alert with no Session Store write and no navigation. -/
theorem role_mapping_and_unauthorized (tag : String)
    (hm : includes tag "ROLE_" = true) :
    (includes tag "ROLE_GUEST" = true → roleOf tag = Role.guest) ∧
    (includes tag "ROLE_GUEST" = false → includes tag "ROLE_EMPLOYEE" = true →
      roleOf tag = Role.employee) ∧
    (includes tag "ROLE_GUEST" = false → includes tag "ROLE_EMPLOYEE" = false →
      roleOf tag = Role.student) ∧
    (∀ data jwtToken auths, jsFalsy data = false → tokenFalsy jwtToken = false →
      findUserRole auths = none →
      handleLogin (.success 200 data jwtToken (some auths)) =
        [Effect.setErrorMessage "",
         Effect.alertBox "Error" "Unauthorized role. Please try again."] ∧
      storageWrites (handleLogin (.success 200 data jwtToken (some auths))) = [] ∧
      navCalls (handleLogin (.success 200 data jwtToken (some auths))) = []) := by
  refine ⟨fun hg => by simp [roleOf, hg],
          fun hg he => by simp [roleOf, hg, he],
          fun hg he => by simp [roleOf, hg, he],
          fun data jwtToken auths hd ht hf => ?_⟩
  have htr : handleLogin (.success 200 data jwtToken (some auths)) =
      [Effect.setErrorMessage "",
       Effect.alertBox "Error" "Unauthorized role. Please try again."] := by
    simp [handleLogin, hd, ht, hf]
  exact ⟨htr, by rw [htr]; rfl, by rw [htr]; rfl⟩

/-- Claim C3 witness: the mapping theorem applied to the tag "ROLE_GUEST" and the
Unauthorized branch applied to an empty authorities sequence. -/
theorem role_mapping_and_unauthorized_witness :
    roleOf "ROLE_GUEST" = Role.guest ∧
    storageWrites (handleLogin (.success 200 (.str "1") (some "T") (some []))) = [] :=
  ⟨(role_mapping_and_unauthorized "ROLE_GUEST" (by decide)).1 (by decide),
   ((role_mapping_and_unauthorized "ROLE_GUEST" (by decide)).2.2.2
     (.str "1") (some "T") [] (by decide) (by decide) (by decide)).2.1⟩

/-- Claim C4 counterexample: on a successful Guest login (subject "G1", authorities
["ROLE_GUEST"]) the router IS invoked, but its params object carries no
identifier — the navigation call's studentNumber parameter slot is `none`,
so the claim that the resolved identifier is passed as a parameter for each
of the three roles is false. -/
theorem router_identifier_counterexample :
    navCalls (handleLogin (.success 200 (.str "G1") (some "tok")
        (some ["ROLE_GUEST"]))) =
      [⟨"Main", "Guests", "GuestViolation", none⟩] ∧
    ¬ (Effect.navReplace ⟨"Main", "Guests", "GuestViolation", some "G1"⟩ ∈
        handleLogin (.success 200 (.str "G1") (some "tok") (some ["ROLE_GUEST"]))) := by
  decide

/-- Claim C4 amended: on every successful login the router is invoked exactly once
with the role-specific destination, but the resolved identifier is passed as
a parameter only to the Student area's entry view; the Guest and Employee
navigation calls carry no identifier parameter. -/
theorem router_dispatch_identifier (data : JsData) (jwtToken : Option String)
    (auths : Option (List String)) (userRole : String)
    (hd : jsFalsy data = false) (ht : tokenFalsy jwtToken = false)
    (hf : findUserRole (auths.getD []) = some userRole) :
    navCalls (handleLogin (.success 200 data jwtToken auths)) =
      [navFor (roleOf userRole) (normalizeSubject data)] ∧
    (roleOf userRole = Role.student →
      (navFor (roleOf userRole) (normalizeSubject data)).paramStudentNumber =
        some (normalizeSubject data)) ∧
    (roleOf userRole ≠ Role.student →
      (navFor (roleOf userRole) (normalizeSubject data)).paramStudentNumber = none) := by
  refine ⟨?_, fun h => by rw [h]; rfl, fun h => ?_⟩
  · rw [handleLogin_success_trace data jwtToken auths userRole hd ht hf]
    rfl
  · cases hr : roleOf userRole with
    | guest => rfl
    | employee => rfl
    | student => exact absurd hr h

/-- Claim C4 witness: the amended dispatch theorem applied to a concrete Student
login and a concrete Guest login. -/
theorem router_dispatch_identifier_witness :
    navCalls (handleLogin (.success 200 (.str "2021001234") (some "T")
        (some ["ROLE_STUDENT"]))) =
      [navFor (roleOf "ROLE_STUDENT") (normalizeSubject (.str "2021001234"))] ∧
    (navFor (roleOf "ROLE_STUDENT") (normalizeSubject (.str "2021001234"))).paramStudentNumber =
      some (normalizeSubject (.str "2021001234")) ∧
    (navFor (roleOf "ROLE_GUEST") (normalizeSubject (.str "G1"))).paramStudentNumber = none :=
  ⟨(router_dispatch_identifier (.str "2021001234") (some "T") (some ["ROLE_STUDENT"])
      "ROLE_STUDENT" (by decide) (by decide) (by decide)).1,
   (router_dispatch_identifier (.str "2021001234") (some "T") (some ["ROLE_STUDENT"])
      "ROLE_STUDENT" (by decide) (by decide) (by decide)).2.1 (by decide),
   (router_dispatch_identifier (.str "G1") (some "T") (some ["ROLE_GUEST"])
      "ROLE_GUEST" (by decide) (by decide) (by decide)).2.2 (by decide)⟩

/-- Claim C5: a 200 response whose body lacks a subject identifier (empty string
or absent) yields the inline message "Student number not received from
server." with no Session Store write, no navigation, and no alert. -/
theorem missing_subject_id (jwtToken : Option String)
    (auths : Option (List String)) (data : JsData)
    (h : data = .str "" ∨ data = .absent) :
    finalErrorMessage (handleLogin (.success 200 data jwtToken auths)) =
      "Student number not received from server." ∧
    storageWrites (handleLogin (.success 200 data jwtToken auths)) = [] ∧
    navCalls (handleLogin (.success 200 data jwtToken auths)) = [] ∧
    alertCalls (handleLogin (.success 200 data jwtToken auths)) = [] := by
  have hd : jsFalsy data = true := by rcases h with h | h <;> subst h <;> rfl
  have htr : handleLogin (.success 200 data jwtToken auths) =
      [Effect.setErrorMessage "",
       Effect.setErrorMessage "Student number not received from server."] := by
    simp [handleLogin, hd]
  rw [htr]
  exact ⟨rfl, rfl, rfl, rfl⟩

/-- Claim C5 witness: the missing-subject theorem applied to a 200 response with an
empty-string body. -/
theorem missing_subject_id_witness :
    storageWrites (handleLogin (.success 200 (.str "") (some "T")
      (some ["ROLE_STUDENT"]))) = [] :=
  (missing_subject_id (some "T") (some ["ROLE_STUDENT"]) (.str "")
    (Or.inl rfl)).2.1

/-- Claim C6: when the remote service rejects with status 400, the displayed
inline message is exactly "Incorrect username or password. Please try
again." and no routing and no Session Store write occurs. -/
theorem invalid_credentials_message (message : Option String) :
    finalErrorMessage (handleLogin (.httpError 400 message)) =
      "Incorrect username or password. Please try again." ∧
    navCalls (handleLogin (.httpError 400 message)) = [] ∧
    storageWrites (handleLogin (.httpError 400 message)) = [] := by
  have htr : handleLogin (.httpError 400 message) =
      [Effect.setErrorMessage "",
       Effect.setErrorMessage "Incorrect username or password. Please try again."] := by
    simp [handleLogin]
  rw [htr]
  exact ⟨rfl, rfl, rfl⟩

/-- Claim C7: on every successful login the effect trace is exactly the ordered
batch role, token, one role-selected identifier slot, followed by the single
router invocation; the other two identifier slots are never written by the
operation. -/
theorem writes_batch_before_router (data : JsData) (jwtToken : Option String)
    (auths : Option (List String)) (userRole : String)
    (hd : jsFalsy data = false) (ht : tokenFalsy jwtToken = false)
    (hf : findUserRole (auths.getD []) = some userRole) :
    handleLogin (.success 200 data jwtToken auths) =
      [Effect.setErrorMessage "",
       Effect.setItem "role" userRole,
       Effect.setItem "token" (jwtToken.getD ""),
       Effect.setItem (slotFor (roleOf userRole)) (normalizeSubject data),
       Effect.navReplace (navFor (roleOf userRole) (normalizeSubject data))] ∧
    slotFor (roleOf userRole) ∈
      (["guestId", "employeeNumber", "studentNumber"] : List String) ∧
    (∀ other v,
      other ∈ (["guestId", "employeeNumber", "studentNumber"] : List String) →
      other ≠ slotFor (roleOf userRole) →
      (other, v) ∉ storageWrites (handleLogin (.success 200 data jwtToken auths))) := by
  have htr := handleLogin_success_trace data jwtToken auths userRole hd ht hf
  refine ⟨htr, by cases roleOf userRole <;> simp [slotFor], ?_⟩
  intro other v hmem hne
  have hsw : storageWrites (handleLogin (.success 200 data jwtToken auths)) =
      [("role", userRole), ("token", jwtToken.getD ""),
       (slotFor (roleOf userRole), normalizeSubject data)] := by
    rw [htr]; rfl
  rw [hsw]
  intro hin
  simp only [List.mem_cons, List.not_mem_nil, or_false, Prod.mk.injEq] at hin
  rcases hin with ⟨h1, _⟩ | ⟨h1, _⟩ | ⟨h1, _⟩
  · subst h1; exact absurd hmem (by decide)
  · subst h1; exact absurd hmem (by decide)
  · exact hne h1

/-- Claim C7 witness: the batch theorem applied to a concrete Employee login;
neither of the other two identifier slots is written. -/
theorem writes_batch_before_router_witness :
    handleLogin (.success 200 (.num 77) (some "T") (some ["ROLE_EMPLOYEE"])) =
      [Effect.setErrorMessage "",
       Effect.setItem "role" "ROLE_EMPLOYEE",
       Effect.setItem "token" "T",
       Effect.setItem (slotFor (roleOf "ROLE_EMPLOYEE")) (normalizeSubject (.num 77)),
       Effect.navReplace (navFor (roleOf "ROLE_EMPLOYEE")
         (normalizeSubject (.num 77)))] ∧
    ("guestId", "77") ∉ storageWrites (handleLogin
      (.success 200 (.num 77) (some "T") (some ["ROLE_EMPLOYEE"]))) :=
  ⟨(writes_batch_before_router (.num 77) (some "T") (some ["ROLE_EMPLOYEE"])
      "ROLE_EMPLOYEE" (by decide) (by decide) (by decide)).1,
   (writes_batch_before_router (.num 77) (some "T") (some ["ROLE_EMPLOYEE"])
      "ROLE_EMPLOYEE" (by decide) (by decide) (by decide)).2.2
     "guestId" "77" (by decide) (by decide)⟩

/-- Claim C8: when the request was sent but no response arrived, the flow sets the
inline message and raises the blocking alert, writes nothing to the Session
Store, and performs no navigation — so nothing blocks a later resubmission. -/
theorem no_response_flow :
    handleLogin .noResponse =
      [Effect.setErrorMessage "",
       Effect.setErrorMessage "No response from server. Check network or server status.",
       Effect.alertBox "Login Error"
         "No response from server. Check network or server status."] ∧
    storageWrites (handleLogin .noResponse) = [] ∧
    navCalls (handleLogin .noResponse) = [] ∧
    finalErrorMessage (handleLogin .noResponse) =
      "No response from server. Check network or server status." ∧
    alertCalls (handleLogin .noResponse) =
      [("Login Error", "No response from server. Check network or server status.")] :=
  ⟨rfl, rfl, rfl, rfl, rfl⟩

/-- Claim C9: a 200 response whose decoded token payload has no authorities field
at all behaves exactly like one with an empty authorities sequence — the
Unauthorized alert, no Session Store write, no navigation — rather than
failing on the missing field. -/
theorem missing_authorities_field (data : JsData) (jwtToken : Option String)
    (hd : jsFalsy data = false) (ht : tokenFalsy jwtToken = false) :
    handleLogin (.success 200 data jwtToken none) =
      handleLogin (.success 200 data jwtToken (some [])) ∧
    handleLogin (.success 200 data jwtToken none) =
      [Effect.setErrorMessage "",
       Effect.alertBox "Error" "Unauthorized role. Please try again."] ∧
    storageWrites (handleLogin (.success 200 data jwtToken none)) = [] ∧
    navCalls (handleLogin (.success 200 data jwtToken none)) = [] := by
  have htr : handleLogin (.success 200 data jwtToken none) =
      [Effect.setErrorMessage "",
       Effect.alertBox "Error" "Unauthorized role. Please try again."] := by
    simp [handleLogin, hd, ht, findUserRole]
  have htr2 : handleLogin (.success 200 data jwtToken (some [])) =
      [Effect.setErrorMessage "",
       Effect.alertBox "Error" "Unauthorized role. Please try again."] := by
    simp [handleLogin, hd, ht, findUserRole]
  rw [htr, htr2]
  exact ⟨rfl, rfl, rfl, rfl⟩

/-- Claim C9 witness: the missing-authorities theorem applied to a 200 response
with subject "1" and token "T". -/
theorem missing_authorities_field_witness :
    handleLogin (.success 200 (.str "1") (some "T") none) =
      handleLogin (.success 200 (.str "1") (some "T") (some [])) :=
  (missing_authorities_field (.str "1") (some "T") (by decide) (by decide)).1

/-- Claim C10: a 200 response carrying the numeric subject identifier 0 is treated
as a missing identifier (the MissingSubjectId inline message, no write),
while a non-zero numeric identifier is normalized to its decimal string and
persisted in the role-selected slot. -/
theorem numeric_subject_handling (jwtToken : Option String)
    (auths : Option (List String)) (n : Int) (userRole : String)
    (hn : n ≠ 0) (ht : tokenFalsy jwtToken = false)
    (hf : findUserRole (auths.getD []) = some userRole) :
    finalErrorMessage (handleLogin (.success 200 (.num 0) jwtToken auths)) =
      "Student number not received from server." ∧
    storageWrites (handleLogin (.success 200 (.num 0) jwtToken auths)) = [] ∧
    storageWrites (handleLogin (.success 200 (.num n) jwtToken auths)) =
      [("role", userRole), ("token", jwtToken.getD ""),
       (slotFor (roleOf userRole), toString n)] := by
  have htr0 : handleLogin (.success 200 (.num 0) jwtToken auths) =
      [Effect.setErrorMessage "",
       Effect.setErrorMessage "Student number not received from server."] := by
    simp [handleLogin, jsFalsy]
  have hd : jsFalsy (.num n) = false := by simp [jsFalsy, hn]
  have htr := handleLogin_success_trace (.num n) jwtToken auths userRole hd ht hf
  refine ⟨by rw [htr0]; rfl, by rw [htr0]; rfl, ?_⟩
  rw [htr]
  rfl

/-- Claim C10 witness: the numeric-subject theorem applied to the non-zero
identifier 5 with a student token. -/
theorem numeric_subject_handling_witness :
    storageWrites (handleLogin (.success 200 (.num 0) (some "T")
      (some ["ROLE_STUDENT"]))) = [] ∧
    storageWrites (handleLogin (.success 200 (.num 5) (some "T")
      (some ["ROLE_STUDENT"]))) =
      [("role", "ROLE_STUDENT"), ("token", "T"),
       (slotFor (roleOf "ROLE_STUDENT"), toString (5 : Int))] :=
  ⟨(numeric_subject_handling (some "T") (some ["ROLE_STUDENT"]) 5 "ROLE_STUDENT"
      (by decide) (by decide) (by decide)).2.1,
   (numeric_subject_handling (some "T") (some ["ROLE_STUDENT"]) 5 "ROLE_STUDENT"
      (by decide) (by decide) (by decide)).2.2⟩
